import Mathlib

/-!
Verification of `tiled/database/core.py`.

The module is embedded shallowly: the store (SQLAlchemy engine + session) becomes an
explicit `DB` state, alembic's stamped revision heads become a `List String`, Python
exceptions become explicit error values, and each function of the module becomes a
Lean function over these states.
-/

set_option autoImplicit false

namespace Tiled

/-- Alembic revision ID of the database revision required by this version of Tiled
(constant `REQUIRED_REVISION` in `tiled/database/core.py`). -/
def REQUIRED_REVISION : String := "481830dd6c11"

/-- The set of all valid revisions (constant `ALL_REVISIONS` in
`tiled/database/core.py`), embedded as a list. -/
def ALL_REVISIONS : List String := ["481830dd6c11"]

/-- Exceptions raised by the schema-version functions.  Each constructor carries the
identifiers that the code interpolates into the exception's message:
`unrecognizedDatabase` carries the offending head revision identifiers named in its
message, `databaseUpgradeNeeded` carries the actual and the required revision. -/
inductive SchemaError where
  | unrecognizedDatabase (heads : List String)
  | uninitializedDatabase
  | databaseUpgradeNeeded (actual : String) (required : String)
deriving DecidableEq, Repr

/-- `get_current_revision(engine)`.  The engine's migration state is the list of
stamped alembic heads (`context.get_current_heads()`).  The module-level constant
`ALL_REVISIONS` that the source reads is passed explicitly as `allRevisions`.
Zero heads returns `none`; more than one head raises `UnrecognizedDatabase` naming
all heads; a single head not in `allRevisions` raises `UnrecognizedDatabase` naming
that head; a single recognized head is returned. -/
def get_current_revision (allRevisions : List String) (heads : List String) :
    Except SchemaError (Option String) :=
  match heads with
  | [] => Except.ok none
  | [revision] =>
      if revision ∈ allRevisions then Except.ok (some revision)
      else Except.error (SchemaError.unrecognizedDatabase [revision])
  | _ => Except.error (SchemaError.unrecognizedDatabase heads)

/-- `check_database(engine)`.  The module-level constants are passed explicitly as
`allRevisions` and `requiredRevision`.  `None` from `get_current_revision` raises
`UninitializedDatabase`; a recognized revision different from the required one
raises `DatabaseUpgradeNeeded` carrying both. -/
def check_database (allRevisions : List String) (requiredRevision : String)
    (heads : List String) : Except SchemaError Unit :=
  match get_current_revision allRevisions heads with
  | Except.error e => Except.error e
  | Except.ok none => Except.error SchemaError.uninitializedDatabase
  | Except.ok (some revision) =>
      if revision ≠ requiredRevision then
        Except.error (SchemaError.databaseUpgradeNeeded revision requiredRevision)
      else Except.ok ()

/-- Recognizer for the `DatabaseUpgradeNeeded` outcome of `check_database`. -/
def isDatabaseUpgradeNeeded : Except SchemaError Unit → Bool
  | Except.error (SchemaError.databaseUpgradeNeeded _ _) => true
  | _ => false

/-- A row of the `roles` table (class `Role` in `tiled/database/orm.py`). -/
structure Role where
  name : String
  description : String
  scopes : List String
deriving DecidableEq, Repr

/-- A row of the `principals` table.  `id` is the store-generated primary key,
synced back by `db.refresh`; `roles` is the many-to-many role collection. -/
structure Principal where
  id : Nat
  type : String
  roles : List Role
deriving DecidableEq, Repr

/-- A row of the `identities` table: an external `(provider, id)` pair bound to a
principal by foreign key `principal_id`. -/
structure Identity where
  provider : String
  id : String
  principal_id : Nat
deriving DecidableEq, Repr

/-- The persistent store as seen by this module: the three tables the code touches,
the auto-increment counter for principal primary keys, the count of session
`commit()` calls, and the alembic revision heads stamped on the database. -/
structure DB where
  roles : List Role
  principals : List Principal
  identities : List Identity
  nextPrincipalId : Nat
  commits : Nat
  heads : List String
deriving DecidableEq, Repr

/-- A brand-new store: empty tables, no commits, no revision stamp. -/
def freshStore : DB :=
  { roles := [], principals := [], identities := [],
    nextPrincipalId := 1, commits := 0, heads := [] }

/-- `create_default_roles(engine)`: adds the two built-in `Role` rows with their
literal scope lists and issues a single `commit()`. -/
def create_default_roles (db : DB) : DB :=
  { db with
      roles := db.roles ++
        [ { name := "user",
            description := "Default Role for users.",
            scopes := ["read:metadata", "read:data", "apikeys"] },
          { name := "admin",
            description := "Default Role for services.",
            scopes := ["read:metadata", "read:data", "admin:apikeys",
                       "read:principals", "metrics"] } ],
      commits := db.commits + 1 }

/-- Modelled from the spec: the head of the externally supplied, totally ordered
alembic migration chain (the on-disk migration script directory is not under
`src/`).  Per the spec, the Bootstrapper stamps the store at the software's
required revision, so the chain's head is `REQUIRED_REVISION`. -/
def MIGRATION_HEAD : String := REQUIRED_REVISION

/-- `initialize_database(engine)`: creates all tables (schema existence is not part
of this state), seeds the default roles, and stamps the database at the alembic
head revision (`command.stamp(alembic_cfg, "head")`). -/
def initialize_database (db : DB) : DB :=
  let db1 := create_default_roles db
  { db1 with heads := [MIGRATION_HEAD] }

/-- Errors that the identity-provisioning functions can produce.
`flushNone` is SQLAlchemy's `FlushError` raised at `commit()` when a `None` value
sits in a relationship collection (the result of `roles.append(None)` after a role
lookup returned no row); it carries the collection's name.  `attributeErrorNone`
is Python's `AttributeError` from dereferencing a `None` principal.
`misconfiguredRegistry` is modelled from the spec: the spec's error taxonomy names
a distinct `MisconfiguredRegistry` error for a missing built-in role; no code under
`src/` defines or raises it, and the constructor exists only so that statements can
compare the code's behaviour against the spec's taxonomy. -/
inductive DBError where
  | flushNone (collection : String)
  | attributeErrorNone
  | misconfiguredRegistry (roleName : String)
deriving DecidableEq, Repr

/-- Whether an error is the spec's distinct `MisconfiguredRegistry` kind. -/
def isMisconfiguredRegistry : DBError → Bool
  | DBError.misconfiguredRegistry _ => true
  | _ => false

/-- `db.query(Role).filter(Role.name == name).first()`. -/
def findRole (name : String) (db : DB) : Option Role :=
  db.roles.find? (fun r => r.name == name)

/-- `db.query(Identity).filter(Identity.id == id).filter(Identity.provider ==
identity_provider).first()`. -/
def findIdentity (identity_provider : String) (id : String) (db : DB) :
    Option Identity :=
  db.identities.find? (fun i => i.id == id && i.provider == identity_provider)

/-- The `identity.principal` relationship: the `Principal` row whose primary key is
the identity's `principal_id` foreign key. -/
def findPrincipal (principal_id : Nat) (db : DB) : Option Principal :=
  db.principals.find? (fun p => p.id == principal_id)

/-- Modelled from the spec: `principal.roles.append(role)`.  The collection class
of the `Principal.roles` relationship is defined in `tiled/database/orm.py`, which
is not under `src/`; the spec states that role membership is a set keyed by role
identity, so appending an already-held role is a no-op. -/
def appendRole (p : Principal) (r : Role) : Principal :=
  if r ∈ p.roles then p else { p with roles := p.roles ++ [r] }

/-- `create_user(db, identity_provider, id)`: builds a `Principal` of type `user`,
appends the role named `user`, commits, reads back the store-generated id, then
inserts the `Identity` row in a second commit.  When no role named `user` exists,
the lookup returns `None`, `roles.append(None)` poisons the collection and the
first `commit()` fails with a `FlushError`; the transaction is rolled back and
nothing is persisted. -/
def create_user (db : DB) (identity_provider : String) (id : String) :
    Except DBError (Principal × DB) :=
  match findRole "user" db with
  | none => Except.error (DBError.flushNone "Principal.roles")
  | some user_role =>
      Except.ok
        (appendRole { id := db.nextPrincipalId, type := "user", roles := [] } user_role,
         { db with
             principals := db.principals ++
               [appendRole { id := db.nextPrincipalId, type := "user", roles := [] }
                  user_role],
             identities := db.identities ++
               [{ provider := identity_provider, id := id,
                  principal_id :=
                    (appendRole { id := db.nextPrincipalId, type := "user", roles := [] }
                       user_role).id }],
             nextPrincipalId := db.nextPrincipalId + 1,
             commits := db.commits + 1 + 1 })

/-- The tail of `make_admin_by_identity` shared by both branches: look up the role
named `admin`, append it to the principal's role collection, and commit.  When no
role named `admin` exists the appended `None` makes the `commit()` fail with a
`FlushError`. -/
def elevateToAdmin (db : DB) (principal : Principal) :
    Except DBError (Principal × DB) :=
  match findRole "admin" db with
  | none => Except.error (DBError.flushNone "Principal.roles")
  | some admin_role =>
      Except.ok
        (appendRole principal admin_role,
         { db with
             principals := db.principals.map
               (fun p => if p.id = principal.id then appendRole principal admin_role
                         else p),
             commits := db.commits + 1 })

/-- `make_admin_by_identity(db, identity_provider, id)`: looks up the `Identity`
row for `(provider, id)`; if absent, self-provisions via `create_user`; otherwise
follows `identity.principal` (a dangling foreign key would dereference `None` and
raise an `AttributeError`).  Either way, the principal then receives the role named
`admin` and the session commits. -/
def make_admin_by_identity (db : DB) (identity_provider : String) (id : String) :
    Except DBError (Principal × DB) :=
  match findIdentity identity_provider id db with
  | none =>
      match create_user db identity_provider id with
      | Except.error e => Except.error e
      | Except.ok (principal, db1) => elevateToAdmin db1 principal
  | some identity =>
      match findPrincipal identity.principal_id db with
      | none => Except.error DBError.attributeErrorNone
      | some principal => elevateToAdmin db principal

/-- A row of any table carrying an `expiration_time` column (API keys, sessions);
`none` models SQL `NULL`. -/
structure ExpirableRow where
  rid : Nat
  expiration_time : Option Int
deriving DecidableEq, Repr

/-- The table swept by `purge_expired`, together with the session commit count. -/
structure ExpirableTable where
  rows : List ExpirableRow
  commits : Nat
deriving DecidableEq, Repr

/-- The Python expression `cls.expiration_time is not None` compares the column
attribute object itself against `None`, so it is the constant `True` and the
resulting `filter(True)` keeps every row. -/
def filterIsNotNone (_r : ExpirableRow) : Bool := true

/-- The SQL filter `cls.expiration_time < now`: comparing `NULL` yields unknown,
which excludes the row. -/
def sqlLtNow (now : Int) (r : ExpirableRow) : Bool :=
  match r.expiration_time with
  | none => false
  | some t => decide (t < now)

/-- The combined WHERE clause of the query in `purge_expired`. -/
def expiredMatch (now : Int) (r : ExpirableRow) : Bool :=
  filterIsNotNone r && sqlLtNow now r

/-- A row the sweep must keep: `expiration_time` is `NULL` or not yet past. -/
def liveAt (now : Int) (r : ExpirableRow) : Bool :=
  match r.expiration_time with
  | none => true
  | some t => decide (now ≤ t)

/-- `purge_expired(cls, db)`: `now` is `datetime.utcnow()`, read once at the start
of the call.  The loop deletes every row matched by the query and sets the
`deleted` flag; `commit()` runs only when the flag was set.  The function returns
the `cls` handle it was given, so callers can chain `db.query(purge_expired(...))`. -/
def purge_expired {α : Type} (cls : α) (now : Int) (db : ExpirableTable) :
    α × ExpirableTable :=
  if (db.rows.filter (fun r => expiredMatch now r)).isEmpty then
    (cls, { db with rows := db.rows.filter (fun r => !(expiredMatch now r)) })
  else
    (cls, { db with rows := db.rows.filter (fun r => !(expiredMatch now r)),
                    commits := db.commits + 1 })

/-- The `Principal` row that `create_user` inserts: type `user`, the next
store-generated id, and the `user` role attached. -/
def provisionedPrincipal (db : DB) (ur : Role) : Principal :=
  { id := db.nextPrincipalId, type := "user", roles := [ur] }

/-- The same principal after `make_admin_by_identity` has appended the `admin`
role. -/
def elevatedPrincipal (db : DB) (ur ar : Role) : Principal :=
  { id := db.nextPrincipalId, type := "user", roles := [ur, ar] }

/-- The `Identity` row that `create_user` inserts for `(provider, id)`. -/
def newIdentityRow (db : DB) (provider id : String) : Identity :=
  { provider := provider, id := id, principal_id := db.nextPrincipalId }

/-- The store after `create_user db provider id` has run (two commits). -/
def afterCreateUser (db : DB) (provider id : String) (ur : Role) : DB :=
  { db with
      principals := db.principals ++ [provisionedPrincipal db ur],
      identities := db.identities ++ [newIdentityRow db provider id],
      nextPrincipalId := db.nextPrincipalId + 1,
      commits := db.commits + 2 }

/-- The store after `make_admin_by_identity db provider id` has run on a store
with no identity row for `(provider, id)` (three commits: two from the inner
`create_user`, one from the elevation). -/
def afterFirstMakeAdmin (db : DB) (provider id : String) (ur ar : Role) : DB :=
  { db with
      principals := db.principals ++ [elevatedPrincipal db ur ar],
      identities := db.identities ++ [newIdentityRow db provider id],
      nextPrincipalId := db.nextPrincipalId + 1,
      commits := db.commits + 3 }

/-- The store after a second `make_admin_by_identity` call for the same
`(provider, id)`: identical except for one more commit. -/
def afterSecondMakeAdmin (db : DB) (provider id : String) (ur ar : Role) : DB :=
  { db with
      principals := db.principals ++ [elevatedPrincipal db ur ar],
      identities := db.identities ++ [newIdentityRow db provider id],
      nextPrincipalId := db.nextPrincipalId + 1,
      commits := db.commits + 4 }

/-- The built-in `user` role row seeded by `create_default_roles`. -/
def builtinUserRole : Role :=
  { name := "user",
    description := "Default Role for users.",
    scopes := ["read:metadata", "read:data", "apikeys"] }

/-- The built-in `admin` role row seeded by `create_default_roles`. -/
def builtinAdminRole : Role :=
  { name := "admin",
    description := "Default Role for services.",
    scopes := ["read:metadata", "read:data", "admin:apikeys",
               "read:principals", "metrics"] }

theorem find?_append_left_none {α : Type} (p : α → Bool) (l1 l2 : List α)
    (h : l1.find? p = none) : (l1 ++ l2).find? p = l2.find? p := by
  rw [List.find?_append, h, Option.none_or]

theorem found_user_role_name (db : DB) (ur : Role)
    (hur : findRole "user" db = some ur) : ur.name = "user" := by
  have hur2 : db.roles.find? (fun r => r.name == "user") = some ur := hur
  simpa using List.find?_some hur2

theorem found_admin_role_name (db : DB) (ar : Role)
    (har : findRole "admin" db = some ar) : ar.name = "admin" := by
  have har2 : db.roles.find? (fun r => r.name == "admin") = some ar := har
  simpa using List.find?_some har2

theorem found_roles_distinct (db : DB) (ur ar : Role)
    (hur : findRole "user" db = some ur)
    (har : findRole "admin" db = some ar) : ar ≠ ur := by
  intro h
  have hun := found_user_role_name db ur hur
  have han := found_admin_role_name db ar har
  rw [h, hun] at han
  exact absurd han (by decide)

theorem create_user_eq (db : DB) (provider id : String) (ur : Role)
    (hur : findRole "user" db = some ur) :
    create_user db provider id =
      Except.ok (provisionedPrincipal db ur, afterCreateUser db provider id ur) := by
  unfold create_user
  rw [hur]
  simp [appendRole, provisionedPrincipal, afterCreateUser, newIdentityRow]

/-- A complete run of the provisioning functions over any store that holds the
built-in roles, has no identity row for `(provider, id)`, and whose
auto-increment counter is fresh: the exact results of `create_user`, of a first
`make_admin_by_identity` (both directly and after an explicit `create_user`),
and of a second `make_admin_by_identity`. -/
theorem make_admin_run_spec (db : DB) (provider id : String) (ur ar : Role)
    (hur : findRole "user" db = some ur)
    (har : findRole "admin" db = some ar)
    (hid : findIdentity provider id db = none)
    (hfresh : ∀ q, q ∈ db.principals → q.id ≠ db.nextPrincipalId) :
    create_user db provider id =
      Except.ok (provisionedPrincipal db ur, afterCreateUser db provider id ur) ∧
    make_admin_by_identity db provider id =
      Except.ok (elevatedPrincipal db ur ar,
                 afterFirstMakeAdmin db provider id ur ar) ∧
    make_admin_by_identity (afterCreateUser db provider id ur) provider id =
      Except.ok (elevatedPrincipal db ur ar,
                 afterFirstMakeAdmin db provider id ur ar) ∧
    make_admin_by_identity (afterFirstMakeAdmin db provider id ur ar) provider id =
      Except.ok (elevatedPrincipal db ur ar,
                 afterSecondMakeAdmin db provider id ur ar) := by
  have hne := found_roles_distinct db ur ar hur har
  have hprefix : db.principals.find? (fun p => p.id == db.nextPrincipalId) = none :=
    List.find?_eq_none.mpr (fun q hq => by simpa using hfresh q hq)
  have hcreate := create_user_eq db provider id ur hur
  have happ : appendRole (provisionedPrincipal db ur) ar = elevatedPrincipal db ur ar := by
    have hnotmem : ar ∉ (provisionedPrincipal db ur).roles := by
      simp [provisionedPrincipal, hne]
    unfold appendRole
    rw [if_neg hnotmem]
    rfl
  have hmap : (afterCreateUser db provider id ur).principals.map
      (fun p => if p.id = (provisionedPrincipal db ur).id then elevatedPrincipal db ur ar
                else p) =
      db.principals ++ [elevatedPrincipal db ur ar] := by
    show (db.principals ++ [provisionedPrincipal db ur]).map _ = _
    rw [List.map_append]
    congr 1
    · calc
        db.principals.map
            (fun p => if p.id = (provisionedPrincipal db ur).id
                      then elevatedPrincipal db ur ar else p) =
            db.principals.map (fun p => p) :=
          List.map_congr_left (fun q hq => if_neg (fun hc => hfresh q hq hc))
        _ = db.principals := List.map_id' db.principals
    · simp
  have hfa : findRole "admin" (afterCreateUser db provider id ur) = some ar := har
  have helev : elevateToAdmin (afterCreateUser db provider id ur)
      (provisionedPrincipal db ur) =
      Except.ok (elevatedPrincipal db ur ar,
                 afterFirstMakeAdmin db provider id ur ar) := by
    simp only [elevateToAdmin, hfa, happ]
    rw [hmap]
    rfl
  have hfi : findIdentity provider id (afterCreateUser db provider id ur) =
      some (newIdentityRow db provider id) := by
    show (db.identities ++ [newIdentityRow db provider id]).find?
        (fun i => i.id == id && i.provider == provider) = _
    rw [find?_append_left_none _ _ _ hid]
    simp [List.find?, newIdentityRow]
  have hfp : findPrincipal (newIdentityRow db provider id).principal_id
      (afterCreateUser db provider id ur) = some (provisionedPrincipal db ur) := by
    show (db.principals ++ [provisionedPrincipal db ur]).find?
        (fun p => p.id == db.nextPrincipalId) = _
    rw [find?_append_left_none _ _ _ hprefix]
    simp [List.find?, provisionedPrincipal, newIdentityRow]
  have hmadeDirect : make_admin_by_identity db provider id =
      Except.ok (elevatedPrincipal db ur ar,
                 afterFirstMakeAdmin db provider id ur ar) := by
    simp only [make_admin_by_identity, hid, hcreate]
    exact helev
  have hmadeA : make_admin_by_identity (afterCreateUser db provider id ur) provider id =
      Except.ok (elevatedPrincipal db ur ar,
                 afterFirstMakeAdmin db provider id ur ar) := by
    simp only [make_admin_by_identity, hfi, hfp]
    exact helev
  have happ2 : appendRole (elevatedPrincipal db ur ar) ar = elevatedPrincipal db ur ar := by
    unfold appendRole
    rw [if_pos]
    show ar ∈ (elevatedPrincipal db ur ar).roles
    simp [elevatedPrincipal]
  have hmap2 : (afterFirstMakeAdmin db provider id ur ar).principals.map
      (fun p => if p.id = (elevatedPrincipal db ur ar).id then elevatedPrincipal db ur ar
                else p) =
      db.principals ++ [elevatedPrincipal db ur ar] := by
    show (db.principals ++ [elevatedPrincipal db ur ar]).map _ = _
    rw [List.map_append]
    congr 1
    · calc
        db.principals.map
            (fun p => if p.id = (elevatedPrincipal db ur ar).id
                      then elevatedPrincipal db ur ar else p) =
            db.principals.map (fun p => p) :=
          List.map_congr_left (fun q hq => if_neg (fun hc => hfresh q hq hc))
        _ = db.principals := List.map_id' db.principals
    · simp
  have hfa2 : findRole "admin" (afterFirstMakeAdmin db provider id ur ar) = some ar := har
  have helev2 : elevateToAdmin (afterFirstMakeAdmin db provider id ur ar)
      (elevatedPrincipal db ur ar) =
      Except.ok (elevatedPrincipal db ur ar,
                 afterSecondMakeAdmin db provider id ur ar) := by
    simp only [elevateToAdmin, hfa2, happ2]
    rw [hmap2]
    rfl
  have hfi2 : findIdentity provider id (afterFirstMakeAdmin db provider id ur ar) =
      some (newIdentityRow db provider id) := by
    show (db.identities ++ [newIdentityRow db provider id]).find?
        (fun i => i.id == id && i.provider == provider) = _
    rw [find?_append_left_none _ _ _ hid]
    simp [List.find?, newIdentityRow]
  have hfp2 : findPrincipal (newIdentityRow db provider id).principal_id
      (afterFirstMakeAdmin db provider id ur ar) =
      some (elevatedPrincipal db ur ar) := by
    show (db.principals ++ [elevatedPrincipal db ur ar]).find?
        (fun p => p.id == db.nextPrincipalId) = _
    rw [find?_append_left_none _ _ _ hprefix]
    simp [List.find?, elevatedPrincipal, newIdentityRow]
  have hmade2 : make_admin_by_identity (afterFirstMakeAdmin db provider id ur ar)
      provider id =
      Except.ok (elevatedPrincipal db ur ar,
                 afterSecondMakeAdmin db provider id ur ar) := by
    simp only [make_admin_by_identity, hfi2, hfp2]
    exact helev2
  exact ⟨hcreate, hmadeDirect, hmadeA, hmade2⟩

/-- C2: a store whose migration history has zero revision heads fails
`check_database` with `UninitializedDatabase`, and after `initialize_database`
has run on a fresh store, `check_database` succeeds. -/
theorem check_database_uninitialized_then_initialized (db : DB) :
    check_database ALL_REVISIONS REQUIRED_REVISION [] =
        Except.error SchemaError.uninitializedDatabase ∧
    check_database ALL_REVISIONS REQUIRED_REVISION (initialize_database db).heads =
        Except.ok () := by
  constructor
  · rfl
  · show check_database ALL_REVISIONS REQUIRED_REVISION [MIGRATION_HEAD] = Except.ok ()
    rfl

/-- C3: `get_current_revision` (and hence `check_database`) raises
`UnrecognizedDatabase` exactly when the store has more than one revision head or
a single head outside the recognized set; with more than one head the error
carries every head identifier, so heads are never auto-merged. -/
theorem unrecognized_database_iff (allRevisions : List String) (required : String)
    (heads : List String) :
    ((∃ hs, get_current_revision allRevisions heads =
        Except.error (SchemaError.unrecognizedDatabase hs)) ↔
      1 < heads.length ∨ ∃ r, heads = [r] ∧ r ∉ allRevisions) ∧
    ((∃ hs, check_database allRevisions required heads =
        Except.error (SchemaError.unrecognizedDatabase hs)) ↔
      1 < heads.length ∨ ∃ r, heads = [r] ∧ r ∉ allRevisions) ∧
    (1 < heads.length → get_current_revision allRevisions heads =
        Except.error (SchemaError.unrecognizedDatabase heads)) := by
  match heads with
  | [] => simp [get_current_revision, check_database]
  | [r] =>
      by_cases hr : r ∈ allRevisions
      · simp only [get_current_revision, check_database, if_pos hr]
        constructor
        · simp
          exact hr
        constructor
        · constructor
          · rintro ⟨hs, h⟩
            by_cases hreq : r ≠ required <;> simp [hreq] at h
          · rintro (h | ⟨s, hs, hmem⟩)
            · simp at h
            · cases hs
              exact absurd hr hmem
        · intro h
          simp at h
      · simp only [get_current_revision, check_database, if_neg hr]
        constructor
        · simp
          exact hr
        constructor
        · simp
          exact hr
        · intro h
          simp at h
  | a :: b :: t =>
      simp [get_current_revision, check_database, Nat.succ_lt_succ_iff]

/-- Witness for C3 at a concrete two-head store: the error names both heads. -/
theorem unrecognized_database_iff_witness :
    1 < (["aaa", "bbb"] : List String).length ∧
    get_current_revision ["481830dd6c11"] ["aaa", "bbb"] =
      Except.error (SchemaError.unrecognizedDatabase ["aaa", "bbb"]) :=
  ⟨by decide,
   (unrecognized_database_iff ["481830dd6c11"] "481830dd6c11" ["aaa", "bbb"]).2.2
     (by decide)⟩

/-- C4: a store stamped with exactly one head that is recognized but differs
from the required revision fails `check_database` with `DatabaseUpgradeNeeded`
carrying both the actual and the required revision. -/
theorem check_database_upgrade_needed (allRevisions : List String)
    (required r : String) (hmem : r ∈ allRevisions) (hne : r ≠ required) :
    check_database allRevisions required [r] =
      Except.error (SchemaError.databaseUpgradeNeeded r required) := by
  simp [check_database, get_current_revision, hmem, hne]

/-- Witness for C4 with a two-revision recognized set. -/
theorem check_database_upgrade_needed_witness :
    ("old" : String) ∈ (["new", "old"] : List String) ∧
    ("old" : String) ≠ "new" ∧
    check_database ["new", "old"] "new" ["old"] =
      Except.error (SchemaError.databaseUpgradeNeeded "old" "new") :=
  ⟨by decide, by decide,
   check_database_upgrade_needed ["new", "old"] "new" "old" (by decide) (by decide)⟩

/-- C10: with the shipped constants, where every recognized revision equals the
required one, the `DatabaseUpgradeNeeded` branch of `check_database` is
unreachable: every store state yields success, `UninitializedDatabase`, or
`UnrecognizedDatabase`. -/
theorem shipped_check_database_never_upgrade_needed (heads : List String) :
    isDatabaseUpgradeNeeded
        (check_database ALL_REVISIONS REQUIRED_REVISION heads) = false ∧
    (check_database ALL_REVISIONS REQUIRED_REVISION heads = Except.ok () ∨
     check_database ALL_REVISIONS REQUIRED_REVISION heads =
        Except.error SchemaError.uninitializedDatabase ∨
     ∃ hs, check_database ALL_REVISIONS REQUIRED_REVISION heads =
        Except.error (SchemaError.unrecognizedDatabase hs)) := by
  match heads with
  | [] => simp [check_database, get_current_revision, isDatabaseUpgradeNeeded]
  | [r] =>
      by_cases hr : r ∈ ALL_REVISIONS
      · have hreq : r = REQUIRED_REVISION := by
          simpa [ALL_REVISIONS, REQUIRED_REVISION] using hr
        subst hreq
        simp [check_database, get_current_revision, hr, isDatabaseUpgradeNeeded]
      · simp [check_database, get_current_revision, hr, isDatabaseUpgradeNeeded]
  | a :: b :: t =>
      simp [check_database, get_current_revision, isDatabaseUpgradeNeeded]

/-- C8: initializing a fresh store seeds exactly two built-in roles, `user` with
scopes exactly `read:metadata, read:data, apikeys` and `admin` with scopes
exactly `read:metadata, read:data, admin:apikeys, read:principals, metrics`, in
those orders, with a single commit. -/
theorem initialize_database_seeds_default_roles :
    (initialize_database freshStore).roles.length = 2 ∧
    findRole "user" (initialize_database freshStore) =
      some { name := "user", description := "Default Role for users.",
             scopes := ["read:metadata", "read:data", "apikeys"] } ∧
    findRole "admin" (initialize_database freshStore) =
      some { name := "admin", description := "Default Role for services.",
             scopes := ["read:metadata", "read:data", "admin:apikeys",
                        "read:principals", "metrics"] } ∧
    (initialize_database freshStore).commits = freshStore.commits + 1 := by
  refine ⟨rfl, ?_, ?_, rfl⟩ <;> decide

theorem purge_expired_fst {α : Type} (cls : α) (now : Int) (t : ExpirableTable) :
    (purge_expired cls now t).1 = cls := by
  unfold purge_expired
  by_cases h : (t.rows.filter (fun r => expiredMatch now r)).isEmpty = true
  · rw [if_pos h]
  · rw [if_neg h]

theorem purge_expired_rows_eq {α : Type} (cls : α) (now : Int) (t : ExpirableTable) :
    ((purge_expired cls now t).2).rows =
      t.rows.filter (fun r => !(expiredMatch now r)) := by
  unfold purge_expired
  by_cases h : (t.rows.filter (fun r => expiredMatch now r)).isEmpty = true
  · rw [if_pos h]
  · rw [if_neg h]

theorem purge_expired_commits_eq {α : Type} (cls : α) (now : Int)
    (t : ExpirableTable) :
    ((purge_expired cls now t).2).commits =
      if (t.rows.filter (fun r => expiredMatch now r)).isEmpty then t.commits
      else t.commits + 1 := by
  unfold purge_expired
  by_cases h : (t.rows.filter (fun r => expiredMatch now r)).isEmpty = true
  · rw [if_pos h, if_pos h]
  · rw [if_neg h, if_neg h]

theorem not_expiredMatch_eq_liveAt (now : Int) (r : ExpirableRow) :
    (!(expiredMatch now r)) = liveAt now r := by
  unfold expiredMatch filterIsNotNone sqlLtNow liveAt
  cases r.expiration_time with
  | none => simp
  | some v =>
      simp only [Bool.true_and]
      rw [← decide_not, decide_eq_decide]
      exact Int.not_lt

/-- C5: `purge_expired` deletes exactly the rows whose `expiration_time` is set
and strictly earlier than the cutoff read once at the start of the call: a null
`expiration_time` never matches, a future one survives, every expired row is
removed, no other row is touched, and a table with no expired rows is left
exactly as it was (and no error is possible). -/
theorem purge_expired_deletes_exactly_expired (now : Int) (t : ExpirableTable) :
    (∀ r, r ∈ t.rows → r.expiration_time = none →
        r ∈ ((purge_expired () now t).2).rows) ∧
    (∀ r s, r ∈ t.rows → r.expiration_time = some s → now ≤ s →
        r ∈ ((purge_expired () now t).2).rows) ∧
    ((purge_expired () now t).2).rows.all (fun r => liveAt now r) = true ∧
    (∀ r, r ∈ ((purge_expired () now t).2).rows → r ∈ t.rows) ∧
    (t.rows.all (fun r => liveAt now r) = true →
        ((purge_expired () now t).2).rows = t.rows) := by
  have hrows := purge_expired_rows_eq () now t
  refine ⟨?_, ?_, ?_, ?_, ?_⟩
  · intro r hr hnone
    rw [hrows]
    refine List.mem_filter.mpr ⟨hr, ?_⟩
    rw [not_expiredMatch_eq_liveAt]
    unfold liveAt
    rw [hnone]
  · intro r s hr hsome hle
    rw [hrows]
    refine List.mem_filter.mpr ⟨hr, ?_⟩
    rw [not_expiredMatch_eq_liveAt]
    unfold liveAt
    rw [hsome]
    simpa using hle
  · rw [hrows]
    refine List.all_eq_true.mpr ?_
    intro x hx
    rw [← not_expiredMatch_eq_liveAt]
    exact (List.mem_filter.mp hx).2
  · intro r hr
    rw [hrows] at hr
    exact (List.mem_filter.mp hr).1
  · intro hall
    rw [hrows]
    refine List.filter_eq_self.mpr ?_
    intro a ha
    rw [not_expiredMatch_eq_liveAt]
    exact List.all_eq_true.mp hall a ha

/-- Witness for C5: with cutoff 3, the row expiring at 5 survives the sweep. -/
theorem purge_expired_deletes_exactly_expired_witness :
    (⟨1, some 5⟩ : ExpirableRow) ∈
      ({ rows := [⟨0, some 1⟩, ⟨1, some 5⟩, ⟨2, none⟩], commits := 0 } :
        ExpirableTable).rows ∧
    (⟨1, some 5⟩ : ExpirableRow).expiration_time = some 5 ∧
    (3 : Int) ≤ 5 ∧
    (⟨1, some 5⟩ : ExpirableRow) ∈
      ((purge_expired () 3
        ({ rows := [⟨0, some 1⟩, ⟨1, some 5⟩, ⟨2, none⟩], commits := 0 } :
          ExpirableTable)).2).rows :=
  ⟨by decide, rfl, by decide,
   (purge_expired_deletes_exactly_expired 3
      { rows := [⟨0, some 1⟩, ⟨1, some 5⟩, ⟨2, none⟩], commits := 0 }).2.1
     ⟨1, some 5⟩ 5 (by decide) rfl (by decide)⟩

/-- C7: `purge_expired` returns the kind handle it was given, and its commit
count rises by exactly one when at least one row matched the deletion query and
stays unchanged when none did. -/
theorem purge_expired_returns_kind_and_commit_iff {α : Type} (cls : α) (now : Int)
    (t : ExpirableTable) :
    (purge_expired cls now t).1 = cls ∧
    (((purge_expired cls now t).2).commits = t.commits + 1 ↔
        t.rows.any (fun r => expiredMatch now r) = true) ∧
    (((purge_expired cls now t).2).commits = t.commits ↔
        t.rows.any (fun r => expiredMatch now r) = false) := by
  have hkey : (t.rows.filter (fun r => expiredMatch now r)).isEmpty = true ↔
      t.rows.any (fun r => expiredMatch now r) = false := by
    rw [List.isEmpty_iff, List.filter_eq_nil_iff, List.any_eq_false]
  refine ⟨purge_expired_fst cls now t, ?_, ?_⟩ <;> rw [purge_expired_commits_eq]
  · cases hb : t.rows.any (fun r => expiredMatch now r) with
    | false =>
        rw [if_pos (hkey.mpr hb)]
        simp
    | true =>
        have hemp : (t.rows.filter (fun r => expiredMatch now r)).isEmpty = false := by
          cases h : (t.rows.filter (fun r => expiredMatch now r)).isEmpty with
          | false => rfl
          | true =>
              rw [hkey] at h
              rw [h] at hb
              cases hb
        simp [hemp]
  · cases hb : t.rows.any (fun r => expiredMatch now r) with
    | false =>
        rw [if_pos (hkey.mpr hb)]
        simp
    | true =>
        have hemp : (t.rows.filter (fun r => expiredMatch now r)).isEmpty = false := by
          cases h : (t.rows.filter (fun r => expiredMatch now r)).isEmpty with
          | false => rfl
          | true =>
              rw [hkey] at h
              rw [h] at hb
              cases hb
        simp [hemp, Nat.succ_ne_self]

/-- C1: on every store that holds the built-in roles, has no identity row yet
for `(provider, id)`, and has a fresh auto-increment counter, two consecutive
`make_admin_by_identity` calls both succeed and leave exactly one new
Principal, bound exactly once to the `user` role and exactly once to the
`admin` role, with no duplicate bindings (role membership is the spec-modelled
duplicate-safe set, see `appendRole`). -/
theorem make_admin_by_identity_idempotent
    (db : DB) (provider id : String) (ur ar : Role)
    (hur : findRole "user" db = some ur)
    (har : findRole "admin" db = some ar)
    (hid : findIdentity provider id db = none)
    (hfresh : ∀ q, q ∈ db.principals → q.id ≠ db.nextPrincipalId) :
    ∃ p1 db1 p2 db2,
      make_admin_by_identity db provider id = Except.ok (p1, db1) ∧
      make_admin_by_identity db1 provider id = Except.ok (p2, db2) ∧
      db2.principals.length = db.principals.length + 1 ∧
      p2 ∈ db2.principals ∧
      p2.roles.count ur = 1 ∧
      p2.roles.count ar = 1 ∧
      p2.roles.Nodup ∧
      db2.identities.length = db.identities.length + 1 := by
  obtain ⟨hcreate, hmade1, hmadeA, hmade2⟩ :=
    make_admin_run_spec db provider id ur ar hur har hid hfresh
  have hne := found_roles_distinct db ur ar hur har
  have hne2 : ur ≠ ar := fun h => hne h.symm
  refine ⟨elevatedPrincipal db ur ar, afterFirstMakeAdmin db provider id ur ar,
          elevatedPrincipal db ur ar, afterSecondMakeAdmin db provider id ur ar,
          hmade1, hmade2, ?_, ?_, ?_, ?_, ?_, ?_⟩
  · simp [afterSecondMakeAdmin]
  · simp [afterSecondMakeAdmin]
  · simp [elevatedPrincipal, List.count_cons, List.count_nil, hne]
  · simp [elevatedPrincipal, List.count_cons, List.count_nil, hne2]
  · simp [elevatedPrincipal, List.nodup_cons, hne2]
  · simp [afterSecondMakeAdmin]

/-- Witness for C1: a freshly initialized store and identity
`("local", "alice")`. -/
theorem make_admin_by_identity_idempotent_witness :
    findRole "user" (initialize_database freshStore) = some builtinUserRole ∧
    findRole "admin" (initialize_database freshStore) = some builtinAdminRole ∧
    findIdentity "local" "alice" (initialize_database freshStore) = none ∧
    (∀ q, q ∈ (initialize_database freshStore).principals →
        q.id ≠ (initialize_database freshStore).nextPrincipalId) ∧
    (∃ p1 db1 p2 db2,
      make_admin_by_identity (initialize_database freshStore) "local" "alice" =
        Except.ok (p1, db1) ∧
      make_admin_by_identity db1 "local" "alice" = Except.ok (p2, db2) ∧
      db2.principals.length =
        (initialize_database freshStore).principals.length + 1 ∧
      p2 ∈ db2.principals ∧
      p2.roles.count builtinUserRole = 1 ∧
      p2.roles.count builtinAdminRole = 1 ∧
      p2.roles.Nodup ∧
      db2.identities.length =
        (initialize_database freshStore).identities.length + 1) :=
  ⟨by decide, by decide, by decide, by decide,
   make_admin_by_identity_idempotent (initialize_database freshStore) "local" "alice"
     builtinUserRole builtinAdminRole (by decide) (by decide) (by decide) (by decide)⟩

/-- C6: when no identity row exists for `(provider, id)`,
`make_admin_by_identity` self-provisions through `create_user` and yields the
very same principal and store as an explicit `create_user` followed by the
elevation; in particular `create_user` and a subsequent `make_admin_by_identity`
return a principal with the same id, and the second call creates no second
Principal. -/
theorem create_user_then_make_admin_same_principal
    (db : DB) (provider id : String) (ur ar : Role)
    (hur : findRole "user" db = some ur)
    (har : findRole "admin" db = some ar)
    (hid : findIdentity provider id db = none)
    (hfresh : ∀ q, q ∈ db.principals → q.id ≠ db.nextPrincipalId) :
    ∃ p1 db1 p2 db2,
      create_user db provider id = Except.ok (p1, db1) ∧
      make_admin_by_identity db1 provider id = Except.ok (p2, db2) ∧
      make_admin_by_identity db provider id = Except.ok (p2, db2) ∧
      p2.id = p1.id ∧
      db2.principals.length = db1.principals.length ∧
      db1.principals.length = db.principals.length + 1 := by
  obtain ⟨hcreate, hmade1, hmadeA, _⟩ :=
    make_admin_run_spec db provider id ur ar hur har hid hfresh
  refine ⟨provisionedPrincipal db ur, afterCreateUser db provider id ur,
          elevatedPrincipal db ur ar, afterFirstMakeAdmin db provider id ur ar,
          hcreate, hmadeA, hmade1, rfl, ?_, ?_⟩
  · simp [afterCreateUser, afterFirstMakeAdmin]
  · simp [afterCreateUser]

/-- Witness for C6: a freshly initialized store and identity
`("pass", "bob")`. -/
theorem create_user_then_make_admin_same_principal_witness :
    findRole "user" (initialize_database freshStore) = some builtinUserRole ∧
    findRole "admin" (initialize_database freshStore) = some builtinAdminRole ∧
    findIdentity "pass" "bob" (initialize_database freshStore) = none ∧
    (∀ q, q ∈ (initialize_database freshStore).principals →
        q.id ≠ (initialize_database freshStore).nextPrincipalId) ∧
    (∃ p1 db1 p2 db2,
      create_user (initialize_database freshStore) "pass" "bob" =
        Except.ok (p1, db1) ∧
      make_admin_by_identity db1 "pass" "bob" = Except.ok (p2, db2) ∧
      make_admin_by_identity (initialize_database freshStore) "pass" "bob" =
        Except.ok (p2, db2) ∧
      p2.id = p1.id ∧
      db2.principals.length = db1.principals.length ∧
      db1.principals.length =
        (initialize_database freshStore).principals.length + 1) :=
  ⟨by decide, by decide, by decide, by decide,
   create_user_then_make_admin_same_principal (initialize_database freshStore)
     "pass" "bob" builtinUserRole builtinAdminRole
     (by decide) (by decide) (by decide) (by decide)⟩

/-- C9 counterexample: on the fresh (role-less) store, `create_user` fails with
the generic flush error from committing a `None` value in the roles collection,
which is not a `MisconfiguredRegistry`-kind error; the code defines and raises
no such distinct error. -/
theorem create_user_missing_role_not_misconfigured :
    create_user freshStore "local" "alice" =
      Except.error (DBError.flushNone "Principal.roles") ∧
    isMisconfiguredRegistry (DBError.flushNone "Principal.roles") = false :=
  ⟨rfl, rfl⟩

/-- C9 amended: when the built-in `user` role (for `create_user`) or `admin`
role (for `make_admin_by_identity`) is missing, the operation does fail rather
than succeed, but with the generic flush error produced by appending `None` to
the roles collection, not with a distinct `MisconfiguredRegistry`-style error
kind. -/
theorem missing_builtin_role_fails_generic (db : DB) (provider id : String) :
    (findRole "user" db = none →
        create_user db provider id =
          Except.error (DBError.flushNone "Principal.roles")) ∧
    (∀ ident pr, findIdentity provider id db = some ident →
        findPrincipal ident.principal_id db = some pr →
        findRole "admin" db = none →
        make_admin_by_identity db provider id =
          Except.error (DBError.flushNone "Principal.roles")) ∧
    (∀ ur, findRole "user" db = some ur →
        findRole "admin" db = none →
        findIdentity provider id db = none →
        make_admin_by_identity db provider id =
          Except.error (DBError.flushNone "Principal.roles")) ∧
    isMisconfiguredRegistry (DBError.flushNone "Principal.roles") = false := by
  refine ⟨?_, ?_, ?_, rfl⟩
  · intro hu
    unfold create_user
    rw [hu]
  · intro ident pr hi hp ha
    simp only [make_admin_by_identity, hi, hp, elevateToAdmin, ha]
  · intro ur hur ha hid
    have hadmin : findRole "admin" (afterCreateUser db provider id ur) = none := ha
    simp only [make_admin_by_identity, hid, create_user_eq db provider id ur hur,
               elevateToAdmin, hadmin]

/-- Witness for the amended C9: the fresh store has no `user` role and
`create_user` fails there with the generic flush error. -/
theorem missing_builtin_role_fails_generic_witness :
    findRole "user" freshStore = none ∧
    create_user freshStore "local" "alice" =
      Except.error (DBError.flushNone "Principal.roles") :=
  ⟨rfl, (missing_builtin_role_fails_generic freshStore "local" "alice").1 rfl⟩

end Tiled
